import Mathlib

/-
  Verification of the UDP notification decoder of the node-doorbird library
  (class DoorbirdUdpSocket in src/index.ts).

  Modelling conventions:
  - A Node.js Buffer is a list of naturals (each byte taken mod 256 where it
    is read as an integer).
  - Text produced by Buffer.toString("utf-8") and compared with configured
    strings (username, password, the literal "motion") is modelled at the
    byte level: comparisons are list equality on the raw bytes, substring
    on the configured strings is List.take on their byte representation.
    This is exact for ASCII data, which is what the protocol carries.
  - The external collaborators (libsodium crypto_pwhash, the chacha-js
    AeadLegacy cipher, and the HTTP session call that yields the
    NOTIFICATION_ENCRYPTION_KEY response field) are parameters of the
    model, collected in CryptoEnv.  The repository code composes them;
    their internals are out of scope.
  - The asynchronous handler onMessage is modelled as a state-passing
    function; a thrown exception (which in the source rejects the async
    handler's promise) is an Except.error result.
  - Mutable fields of DoorbirdUdpSocket (lastEventTimestamp,
    notificationEncryptionKey) live in UdpSocketState, together with the
    running flag of the underlying dgram socket and a ghost counter
    sessionCalls counting Control-API session calls.
-/

/-- Node Buffer.subarray start stop: the bytes in positions
[start, min stop length), clamping out-of-range indices. -/
def subarray (buf : List Nat) (start stop : Nat) : List Nat :=
  (buf.take stop).drop start

/-- Reinterpret an unsigned 32-bit value as a signed 32-bit integer
(two's complement). -/
def toSigned32 (u : Nat) : Int :=
  if u < 2147483648 then (u : Int) else (u : Int) - 4294967296

/-- Node Buffer.readInt32BE() at offset 0: big-endian signed 32-bit read.
Throws RangeError ERR_OUT_OF_RANGE when the buffer holds fewer than
4 bytes; the thrown error is modelled as Except.error. -/
def readInt32BE (buf : List Nat) : Except String Int :=
  match buf with
  | b0 :: b1 :: b2 :: b3 :: _ =>
    Except.ok (toSigned32
      ((b0 % 256) * 16777216 + (b1 % 256) * 65536 + (b2 % 256) * 256 + b3 % 256))
  | _ => Except.error "ERR_OUT_OF_RANGE"

/-- Whitespace recognised by JavaScript String.prototype.trim, restricted to
single-byte (ASCII) code points: TAB, LF, VT, FF, CR, SPACE. -/
def isJsWhitespace (b : Nat) : Bool :=
  b == 9 || b == 10 || b == 11 || b == 12 || b == 13 || b == 32

/-- JavaScript String.prototype.trim at the byte level: strip leading and
trailing whitespace. -/
def jsTrim (l : List Nat) : List Nat :=
  ((l.dropWhile isJsWhitespace).reverse.dropWhile isJsWhitespace).reverse

/-- The fixed 3-byte identifier of Doorbird UDP packages: DE AD BE. -/
def udpIdentifier : List Nat := [222, 173, 190]

/-- Fixed argon key length used for the v1 key stretch. -/
def argonKeyLength : Nat := 32

/-- UTF-8 bytes of the literal "motion". -/
def motionBytes : List Nat := [109, 111, 116, 105, 111, 110]

/-- External collaborators of DoorbirdUdpSocket, as opaque-to-the-core
functions: the libsodium password hash, the chacha-js AeadLegacy
decipher update, and the NOTIFICATION_ENCRYPTION_KEY field (UTF-8 bytes)
of the Control API session response. -/
structure CryptoEnv where
  crypto_pwhash : Nat → List Nat → List Nat → Int → Int → List Nat
  aeadLegacyUpdate : List Nat → List Nat → List Nat → List Nat
  sessionNotificationEncryptionKey : List Nat

/-- Configuration of a DoorbirdUdpSocket: username and password, as the
UTF-8 bytes of the configured strings. -/
structure UdpConfig where
  username : List Nat
  password : List Nat
deriving DecidableEq, Repr

/-- Mutable state of a DoorbirdUdpSocket plus its underlying dgram socket:
lastEventTimestamp and the cached notificationEncryptionKey are fields of
the class; serverRunning models whether the bound dgram socket is still
open; sessionCalls is a ghost counter of Control-API session calls. -/
structure UdpSocketState where
  lastEventTimestamp : Int
  notificationEncryptionKey : Option (List Nat)
  sessionCalls : Nat
  serverRunning : Bool
deriving DecidableEq, Repr

/-- State of a freshly constructed DoorbirdUdpSocket. -/
def initialState : UdpSocketState :=
  { lastEventTimestamp := 0
    notificationEncryptionKey := none
    sessionCalls := 0
    serverRunning := true }

/-- A dispatched notification event: MotionEvent { intercomId, timestamp }
or RingEvent { intercomId, event, timestamp }.  Timestamps are the POSIX
seconds written into the Date object via setUTCSeconds. -/
inductive UdpEvent where
  | motion (intercomId : List Nat) (timestampSec : Int)
  | ring (intercomId : List Nat) (eventTag : List Nat) (timestampSec : Int)
deriving DecidableEq, Repr

/-- DoorbirdUdpSocket.strech: argon2i key stretch over the first 5
characters of the password, the packet salt, and the packet-supplied cost
parameters (read as big-endian signed 32-bit integers, which throws on
buffers shorter than 4 bytes). -/
def strech (env : CryptoEnv) (cfg : UdpConfig)
    (salt opslimit memlimit : List Nat) : Except String (List Nat) :=
  match readInt32BE opslimit with
  | Except.error e => Except.error e
  | Except.ok ops =>
    match readInt32BE memlimit with
    | Except.error e => Except.error e
    | Except.ok mem =>
      Except.ok (env.crypto_pwhash argonKeyLength (cfg.password.take 5) salt ops mem)

/-- DoorbirdUdpSocket.decryptV1: slice the fixed v1 byte ranges, stretch the
key, then run the AeadLegacy decipher update on the ciphertext. -/
def decryptV1 (env : CryptoEnv) (cfg : UdpConfig) (msg : List Nat) :
    Except String (List Nat) :=
  let opslimit := subarray msg 4 8
  let memlimit := subarray msg 8 12
  let salt := subarray msg 12 28
  let nonce := subarray msg 28 36
  let ciphertext := subarray msg 36 70
  match strech env cfg salt opslimit memlimit with
  | Except.error e => Except.error e
  | Except.ok streched => Except.ok (env.aeadLegacyUpdate streched nonce ciphertext)

/-- DoorbirdUdpSocket.getNotificationEncryptionKey: return the cached key,
or on a cache miss call the Control API session operation once, store the
UTF-8 bytes of its NOTIFICATION_ENCRYPTION_KEY field, and return them.
The ghost counter sessionCalls increments exactly on the cache-miss call. -/
def getNotificationEncryptionKey (env : CryptoEnv) (st : UdpSocketState) :
    List Nat × UdpSocketState :=
  match st.notificationEncryptionKey with
  | some key => (key, st)
  | none =>
    let key := env.sessionNotificationEncryptionKey
    (key, { st with notificationEncryptionKey := some key
                    sessionCalls := st.sessionCalls + 1 })

/-- DoorbirdUdpSocket.decryptV2: slice the fixed v2 byte ranges, resolve the
notification encryption key (possibly calling the Control API), then run
the AeadLegacy decipher update on the ciphertext. -/
def decryptV2 (env : CryptoEnv) (st : UdpSocketState) (msg : List Nat) :
    List Nat × UdpSocketState :=
  let nonce := subarray msg 4 12
  let ciphertext := subarray msg 12 46
  let keySt := getNotificationEncryptionKey env st
  (env.aeadLegacyUpdate keySt.1 nonce ciphertext, keySt.2)

/-- Lines 341-369 of onMessage, after decryption: slice the decrypted
payload into intercomId (0..6), event tag (6..14) and timestamp (14..18);
silently drop unless intercomId equals the first 6 characters of the
configured username; decode the timestamp (big-endian signed 32-bit);
classify by whether the trimmed tag equals "motion".  Returns the event to
be dispatched (none on a silent drop). -/
def dispatchDecrypted (cfg : UdpConfig) (decrypted : List Nat) :
    Except String (Option UdpEvent) :=
  let intercomId := subarray decrypted 0 6
  let event := subarray decrypted 6 14
  let timestamp := subarray decrypted 14 18
  if cfg.username.take 6 ≠ intercomId then Except.ok none
  else
    match readInt32BE timestamp with
    | Except.error e => Except.error e
    | Except.ok ts =>
      let trimmedEvent := jsTrim event
      if trimmedEvent = motionBytes then
        Except.ok (some (UdpEvent.motion intercomId ts))
      else
        Except.ok (some (UdpEvent.ring intercomId trimmedEvent ts))

/-- The version byte of a datagram: element 0 of msg.subarray(3, 4), which
is absent when the datagram is shorter than 4 bytes. -/
def versionByte (msg : List Nat) : Option Nat :=
  (subarray msg 3 4).head?

/-- True when msg.subarray(0, 3) equals the DE AD BE identifier (compared
in the source via equal base64 renderings, which agree with byte equality). -/
def identifierOk (msg : List Nat) : Bool :=
  subarray msg 0 3 == udpIdentifier

/-- The part of onMessage after the identifier and burst checks: dispatch on
the version byte (0x01 -> decryptV1, 0x02 -> decryptV2, anything else --
including a missing byte 3 -- throws "Unsupported version of UDP
package."), then classify and build the event from the decrypted payload. -/
def onMessageAfterBurst (env : CryptoEnv) (cfg : UdpConfig)
    (st : UdpSocketState) (msg : List Nat) :
    UdpSocketState × Except String (Option UdpEvent) :=
  match versionByte msg with
  | some 1 =>
    match decryptV1 env cfg msg with
    | Except.error e => (st, Except.error e)
    | Except.ok decrypted => (st, dispatchDecrypted cfg decrypted)
  | some 2 =>
    let r := decryptV2 env st msg
    (r.2, dispatchDecrypted cfg r.1)
  | _ => (st, Except.error "Unsupported version of UDP package.")

/-- DoorbirdUdpSocket.onMessage: drop silently unless the first three bytes
equal DE AD BE; with burst suppression enabled, drop silently when fewer
than 1000 ms elapsed since the last accepted datagram and otherwise record
the current time; then continue with version dispatch and decryption.
now is the current wall clock in milliseconds. -/
def onMessage (env : CryptoEnv) (cfg : UdpConfig) (suppressBurst : Bool)
    (st : UdpSocketState) (msg : List Nat) (now : Int) :
    UdpSocketState × Except String (Option UdpEvent) :=
  if identifierOk msg then
    if suppressBurst then
      if now - st.lastEventTimestamp < 1000 then (st, Except.ok none)
      else onMessageAfterBurst env cfg { st with lastEventTimestamp := now } msg
    else onMessageAfterBurst env cfg st msg
  else (st, Except.ok none)

/-- Array.prototype.forEach over listener callbacks, with JavaScript
exception semantics: listeners run in registration order; a throwing
listener aborts the loop and the exception propagates.  Returns the number
of listeners that were invoked and the propagated error, if any. -/
def forEachListeners (ls : List (UdpEvent → Except String Unit))
    (ev : UdpEvent) : Nat × Option String :=
  match ls with
  | [] => (0, none)
  | f :: rest =>
    match f ev with
    | Except.error e => (1, some e)
    | Except.ok _ =>
      let r := forEachListeners rest ev
      (r.1 + 1, r.2)

/-- Fan-out of one classified event: a motion event goes to the motion
listeners, any other event to the ring listeners.  Returns the number of
motion listeners invoked, the number of ring listeners invoked, and the
propagated listener exception, if any. -/
def dispatchEvent (motionListeners ringListeners : List (UdpEvent → Except String Unit))
    (ev : UdpEvent) : Nat × Nat × Option String :=
  match ev with
  | UdpEvent.motion _ _ =>
    let r := forEachListeners motionListeners ev
    (r.1, 0, r.2)
  | UdpEvent.ring _ _ _ =>
    let r := forEachListeners ringListeners ev
    (0, r.1, r.2)

/-- Listener invocations produced by a per-datagram processing outcome:
nothing runs on a silent drop or on a thrown processing error. -/
def invocationsOf (motionListeners ringListeners : List (UdpEvent → Except String Unit))
    (r : Except String (Option UdpEvent)) : Nat × Nat × Option String :=
  match r with
  | Except.ok (some ev) => dispatchEvent motionListeners ringListeners ev
  | _ => (0, 0, none)

/-- DoorbirdUdpSocket.close: the guard if (this.server) is always true
(the field is assigned in the constructor), so this always calls
dgram.Socket.close(), which stops a running socket and throws
ERR_SOCKET_DGRAM_NOT_RUNNING when the socket is already closed (Node dgram
semantics).  Nothing else in the class state is touched. -/
def close (st : UdpSocketState) : UdpSocketState × Except String Unit :=
  if st.serverRunning then ({ st with serverRunning := false }, Except.ok ())
  else (st, Except.error "ERR_SOCKET_DGRAM_NOT_RUNNING")

/-- Sequential processing of a list of datagrams that all pass the
identifier and burst checks, threading the socket state. -/
def processSeq (env : CryptoEnv) (cfg : UdpConfig) (st : UdpSocketState)
    (msgs : List (List Nat)) : UdpSocketState :=
  msgs.foldl (fun s m => (onMessageAfterBurst env cfg s m).1) st

/-- All listeners in the list return normally on every event. -/
def allOk (ls : List (UdpEvent → Except String Unit)) : Prop :=
  ∀ f ∈ ls, ∀ ev, f ev = Except.ok ()

/-
  Concrete fixtures used by witnesses and counterexamples.
-/

/-- UTF-8 bytes of the 6-character device username "aaaaaa". -/
def username0 : List Nat := [97, 97, 97, 97, 97, 97]

/-- A concrete configuration: username "aaaaaa", password "pw1234". -/
def cfg0 : UdpConfig :=
  { username := username0, password := [112, 119, 49, 50, 51, 52] }

/-- A concrete environment whose decipher is the identity on the ciphertext
(so plaintexts can be written directly into test datagrams) and whose
session response carries a 32-byte key. -/
def env0 : CryptoEnv :=
  { crypto_pwhash := fun _ _ _ _ _ => List.replicate 32 7
    aeadLegacyUpdate := fun _ _ ciphertext => ciphertext
    sessionNotificationEncryptionKey := List.replicate 32 9 }

/-- An environment whose session response carries the 3-character key "NEK",
the fixture value used by the repository's own test suite. -/
def envNEK : CryptoEnv :=
  { crypto_pwhash := fun _ _ _ _ _ => List.replicate 32 7
    aeadLegacyUpdate := fun _ _ ciphertext => ciphertext
    sessionNotificationEncryptionKey := [78, 69, 75] }

/-- A 34-byte plaintext/ciphertext: "aaaaaa" ++ "motion  " ++ big-endian 1
++ 16 bytes of padding. -/
def payloadMotion : List Nat :=
  username0 ++ (motionBytes ++ [32, 32]) ++ [0, 0, 0, 1] ++ List.replicate 16 0

/-- A full 70-byte v1 datagram: DE AD BE 01, opslimit 4, memlimit 0x2000,
a 16-byte salt, an 8-byte nonce, and payloadMotion as ciphertext. -/
def msgV1 : List Nat :=
  [222, 173, 190, 1] ++ [0, 0, 0, 4] ++ [0, 0, 32, 0] ++
    List.replicate 16 5 ++ List.replicate 8 6 ++ payloadMotion

/-- A full 46-byte v2 datagram: DE AD BE 02, an 8-byte nonce, and
payloadMotion as ciphertext. -/
def msgV2 : List Nat :=
  [222, 173, 190, 2] ++ List.replicate 8 6 ++ payloadMotion

/-- A listener that always returns normally. -/
def listenerOk : UdpEvent → Except String Unit := fun _ => Except.ok ()

/-- A listener that always throws "boom". -/
def listenerBoom : UdpEvent → Except String Unit := fun _ => Except.error "boom"

/-- A concrete event used to exercise the listener loop. -/
def ev0 : UdpEvent := UdpEvent.motion username0 1

/-
  Helper lemmas shared between the claim theorems.
-/

/-- Two buffers agreeing on their first n bytes agree on every subarray that
ends at or before n. -/
theorem subarray_eq_of_take_eq (a b n : Nat) {l1 l2 : List Nat}
    (hb : b ≤ n) (h : l1.take n = l2.take n) :
    subarray l1 a b = subarray l2 a b := by
  have h1 : l1.take b = l2.take b := by
    have h2 := congrArg (List.take b) h
    simpa [List.take_take, Nat.min_eq_left hb] using h2
  simp [subarray, h1]

/-- Processing after the burst check never changes lastEventTimestamp. -/
theorem afterBurst_lastEventTimestamp (env : CryptoEnv) (cfg : UdpConfig)
    (st : UdpSocketState) (msg : List Nat) :
    (onMessageAfterBurst env cfg st msg).1.lastEventTimestamp
      = st.lastEventTimestamp := by
  unfold onMessageAfterBurst
  split
  · split <;> rfl
  · simp only [decryptV2, getNotificationEncryptionKey]
    split <;> rfl
  · rfl

/-- Processing after the burst check leaves the state unchanged whenever
the notification key cache is already populated. -/
theorem afterBurst_state_of_cache_some (env : CryptoEnv) (cfg : UdpConfig)
    (st : UdpSocketState) (msg : List Nat) (k : List Nat)
    (h : st.notificationEncryptionKey = some k) :
    (onMessageAfterBurst env cfg st msg).1 = st := by
  unfold onMessageAfterBurst
  split
  · split <;> rfl
  · simp only [decryptV2, getNotificationEncryptionKey, h]
  · rfl

/-- Sequential processing from a state with a populated key cache leaves the
state unchanged. -/
theorem processSeq_of_cache_some (env : CryptoEnv) (cfg : UdpConfig)
    (msgs : List (List Nat)) (st : UdpSocketState) (k : List Nat)
    (h : st.notificationEncryptionKey = some k) :
    processSeq env cfg st msgs = st := by
  induction msgs generalizing st with
  | nil => rfl
  | cons m rest ih =>
    have hst := afterBurst_state_of_cache_some env cfg st m k h
    simp only [processSeq, List.foldl_cons]
    rw [show (onMessageAfterBurst env cfg st m).1 = st from hst]
    exact ih st h

/-- When every listener returns normally, the forEach loop invokes them all
and no exception propagates. -/
theorem forEachListeners_of_allOk {ls : List (UdpEvent → Except String Unit)}
    (h : allOk ls) (ev : UdpEvent) :
    forEachListeners ls ev = (ls.length, none) := by
  induction ls with
  | nil => rfl
  | cons f rest ih =>
    have hf : f ev = Except.ok () := h f (List.mem_cons_self f rest) ev
    have hrest : allOk rest := fun g hg => h g (List.mem_cons_of_mem f hg)
    simp [forEachListeners, hf, ih hrest]

/-- A datagram that dispatched an event under burst suppression left its
arrival time in lastEventTimestamp. -/
theorem dispatched_lastEventTimestamp {env : CryptoEnv} {cfg : UdpConfig}
    {st0 st1 : UdpSocketState} {msg : List Nat} {t : Int} {ev : UdpEvent}
    (h : onMessage env cfg true st0 msg t = (st1, Except.ok (some ev))) :
    st1.lastEventTimestamp = t := by
  unfold onMessage at h
  by_cases hid : identifierOk msg = true
  · rw [if_pos hid, if_pos rfl] at h
    by_cases hb : t - st0.lastEventTimestamp < 1000
    · rw [if_pos hb] at h
      exact absurd (congrArg Prod.snd h) (by simp)
    · rw [if_neg hb] at h
      have h1 := congrArg Prod.fst h
      simp only at h1
      rw [← h1, afterBurst_lastEventTimestamp]
  · rw [if_neg hid] at h
    exact absurd (congrArg Prod.snd h) (by simp)

/-
  Claim theorems.
-/

/-- C1: for every datagram that passed the identifier, version, decryption
and device-identity checks, exactly one kind of event is dispatched: when
the decrypted event tag (bytes 6..14), trimmed of surrounding whitespace,
case-sensitively equals "motion", every registered motion listener receives
a MotionEvent carrying the intercomId (bytes 0..6) and the timestamp
decoded from bytes 14..18 as a big-endian signed 32-bit count of POSIX
seconds, and no ring listener is invoked; otherwise every registered ring
listener receives a RingEvent carrying the trimmed tag, and no motion
listener is invoked.  The last conjunct ties the classification to the
per-datagram handler after decryption. -/
theorem C1_event_classification (cfg : UdpConfig) (p : List Nat) (ts : Int)
    (motionListeners ringListeners : List (UdpEvent → Except String Unit))
    (hid : cfg.username.take 6 = subarray p 0 6)
    (hts : readInt32BE (subarray p 14 18) = Except.ok ts)
    (hm : allOk motionListeners) (hr : allOk ringListeners) :
    (jsTrim (subarray p 6 14) = motionBytes →
      dispatchDecrypted cfg p
        = Except.ok (some (UdpEvent.motion (subarray p 0 6) ts)) ∧
      dispatchEvent motionListeners ringListeners
          (UdpEvent.motion (subarray p 0 6) ts)
        = (motionListeners.length, 0, none)) ∧
    (jsTrim (subarray p 6 14) ≠ motionBytes →
      dispatchDecrypted cfg p
        = Except.ok (some (UdpEvent.ring (subarray p 0 6) (jsTrim (subarray p 6 14)) ts)) ∧
      dispatchEvent motionListeners ringListeners
          (UdpEvent.ring (subarray p 0 6) (jsTrim (subarray p 6 14)) ts)
        = (0, ringListeners.length, none)) ∧
    (∀ (env : CryptoEnv) (st : UdpSocketState) (msg : List Nat),
      versionByte msg = some 1 → decryptV1 env cfg msg = Except.ok p →
      onMessageAfterBurst env cfg st msg = (st, dispatchDecrypted cfg p)) := by
  refine ⟨?_, ?_, ?_⟩
  · intro hmot
    constructor
    · simp [dispatchDecrypted, hid, hts, hmot]
    · simp [dispatchEvent, forEachListeners_of_allOk hm]
  · intro hmot
    constructor
    · simp [dispatchDecrypted, hid, hts, hmot]
    · simp [dispatchEvent, forEachListeners_of_allOk hr]
  · intro env st msg hv hdec
    simp [onMessageAfterBurst, hv, hdec]

/-- C1 witness: a concrete 34-byte payload whose tag is "motion  " is
classified as a MotionEvent with timestamp 1 and delivered to the single
registered motion listener, and to no ring listener. -/
theorem C1_event_classification_witness :
    dispatchDecrypted cfg0 payloadMotion
      = Except.ok (some (UdpEvent.motion (subarray payloadMotion 0 6) 1)) ∧
    dispatchEvent [listenerOk] [listenerOk]
        (UdpEvent.motion (subarray payloadMotion 0 6) 1) = (1, 0, none) :=
  (C1_event_classification cfg0 payloadMotion 1 [listenerOk] [listenerOk]
      (by decide) (by rfl)
      (by intro f hf ev
          simp only [List.mem_singleton] at hf
          rw [hf]
          rfl)
      (by intro f hf ev
          simp only [List.mem_singleton] at hf
          rw [hf]
          rfl)).1 (by decide)

/-- C2 counterexample: the concrete 4-byte datagram DE AD BE 03 has a valid
identifier and an unknown version; per-datagram processing does drop it
without invoking a listener, but — contrary to the claim — it raises the
error "Unsupported version of UDP package." (the async handler's promise
rejects), rather than returning silently. -/
theorem C2_counterexample :
    onMessage env0 cfg0 false initialState [222, 173, 190, 3] 0
      = (initialState, Except.error "Unsupported version of UDP package.") ∧
    invocationsOf [listenerOk] [listenerOk]
        (onMessage env0 cfg0 false initialState [222, 173, 190, 3] 0).2
      = (0, 0, none) :=
  ⟨rfl, rfl⟩

/-- C2 (amended): for every datagram whose first 3 bytes equal DE AD BE but
whose version byte is neither 0x01 nor 0x02, per-datagram processing
invokes no listener and dispatches no event, but it throws the error
"Unsupported version of UDP package." instead of returning silently. -/
theorem C2_amended_unknown_version_throws (env : CryptoEnv) (cfg : UdpConfig)
    (st : UdpSocketState) (msg : List Nat) (now : Int) (v : Nat)
    (hi : identifierOk msg = true) (hv : versionByte msg = some v)
    (h1 : v ≠ 1) (h2 : v ≠ 2) :
    onMessage env cfg false st msg now
      = (st, Except.error "Unsupported version of UDP package.") ∧
    ∀ motionListeners ringListeners,
      invocationsOf motionListeners ringListeners
          (onMessage env cfg false st msg now).2 = (0, 0, none) := by
  have hmain : onMessage env cfg false st msg now
      = (st, Except.error "Unsupported version of UDP package.") := by
    unfold onMessage
    rw [if_pos hi, if_neg Bool.false_ne_true]
    unfold onMessageAfterBurst
    rw [hv]
    rcases v with _ | (_ | (_ | n))
    · rfl
    · exact absurd rfl h1
    · exact absurd rfl h2
    · rfl
  exact ⟨hmain, fun motionListeners ringListeners => by rw [hmain]; rfl⟩

/-- C2 amended witness: the amended statement at the concrete datagram
DE AD BE 03. -/
theorem C2_amended_unknown_version_throws_witness :
    onMessage env0 cfg0 false initialState [222, 173, 190, 3] 100
      = (initialState, Except.error "Unsupported version of UDP package.") ∧
    ∀ motionListeners ringListeners,
      invocationsOf motionListeners ringListeners
          (onMessage env0 cfg0 false initialState [222, 173, 190, 3] 100).2
        = (0, 0, none) :=
  C2_amended_unknown_version_throws env0 cfg0 initialState [222, 173, 190, 3]
    100 3 (by decide) (by decide) (by decide) (by decide)

/-- C3: the 4-byte datagram DE AD BE 01 has a valid identifier and declared
version 0x01 but is far shorter than the 70-byte v1 region.  Contrary to
the drop-without-crash contract, processing throws RangeError
ERR_OUT_OF_RANGE (readInt32BE on the empty opslimit slice), so the
exception escapes the per-datagram handler and rejects its promise.  No
listener is invoked. -/
theorem C3_short_v1_packet_raises :
    onMessage env0 cfg0 false initialState [222, 173, 190, 1] 0
      = (initialState, Except.error "ERR_OUT_OF_RANGE") ∧
    invocationsOf [listenerOk] [listenerOk]
        (onMessage env0 cfg0 false initialState [222, 173, 190, 1] 0).2
      = (0, 0, none) :=
  ⟨rfl, rfl⟩

/-- C4 counterexample: with two registered motion listeners of which the
first throws, the forEach dispatch loop invokes only 1 of the 2 listeners —
the listener registered after the throwing one is never invoked — and the
exception propagates out of the dispatch loop. -/
theorem C4_counterexample :
    dispatchEvent [listenerBoom, listenerOk] [] ev0 = (1, 0, some "boom") ∧
    ([listenerBoom, listenerOk] : List (UdpEvent → Except String Unit)).length = 2 :=
  ⟨rfl, rfl⟩

/-- C4 (amended): if a listener callback throws, all listeners registered
before it are invoked in order, the throwing listener is invoked, no
listener registered after it is invoked, and the exception propagates out
of the dispatch loop (rejecting the handler's promise). -/
theorem C4_amended_listener_throw (ev : UdpEvent)
    (pre post : List (UdpEvent → Except String Unit))
    (f : UdpEvent → Except String Unit) (e : String)
    (hpre : allOk pre) (hf : f ev = Except.error e) :
    forEachListeners (pre ++ f :: post) ev = (pre.length + 1, some e) := by
  induction pre with
  | nil => simp [forEachListeners, hf]
  | cons g rest ih =>
    have hg : g ev = Except.ok () := hpre g (List.mem_cons_self g rest) ev
    have hrest : allOk rest := fun x hx => hpre x (List.mem_cons_of_mem g hx)
    simp [forEachListeners, hg, ih hrest]

/-- C4 amended witness: of three listeners [ok, throwing, ok], exactly the
first two are invoked and the exception propagates. -/
theorem C4_amended_listener_throw_witness :
    forEachListeners [listenerOk, listenerBoom, listenerOk] ev0
      = (2, some "boom") :=
  C4_amended_listener_throw ev0 [listenerOk] [listenerOk] listenerBoom "boom"
    (by intro f hf ev
        simp only [List.mem_singleton] at hf
        rw [hf]
        rfl)
    rfl

/-- Processing after the burst check produces the same outcome from any two
states that agree on the cached notification key: in particular the
outcome never depends on whether the underlying socket is still open. -/
theorem afterBurst_snd_congr (env : CryptoEnv) (cfg : UdpConfig)
    (st1 st2 : UdpSocketState) (msg : List Nat)
    (hnek : st1.notificationEncryptionKey = st2.notificationEncryptionKey) :
    (onMessageAfterBurst env cfg st1 msg).2
      = (onMessageAfterBurst env cfg st2 msg).2 := by
  unfold onMessageAfterBurst
  rcases hv : versionByte msg with _ | v
  · rfl
  · rcases v with _ | (_ | (_ | n))
    · rfl
    · cases hd : decryptV1 env cfg msg <;> simp [hd]
    · simp only [decryptV2, getNotificationEncryptionKey, hnek]
      cases hc : st2.notificationEncryptionKey <;> simp [hc]
    · rfl

/-- C5 counterexample: after close() flips the running flag of the dgram
socket, a datagram whose processing was already past the burst check still
decrypts and invokes a registered listener (the dispatch path never
consults the closed state), and a second close() throws
ERR_SOCKET_DGRAM_NOT_RUNNING instead of being a no-op. -/
theorem C5_counterexample :
    (close (close initialState).1).2
      = Except.error "ERR_SOCKET_DGRAM_NOT_RUNNING" ∧
    invocationsOf [listenerOk] []
        (onMessageAfterBurst env0 cfg0 (close initialState).1 msgV1).2
      = (1, 0, none) :=
  ⟨rfl, rfl⟩

/-- C5 (amended): close() only closes the underlying dgram socket; the
per-datagram processing outcome is independent of the closed state, so
datagrams already in flight at close time still invoke listeners when
their decryption completes; and while the first close() stops the running
socket, calling close() again throws ERR_SOCKET_DGRAM_NOT_RUNNING rather
than being a no-op. -/
theorem C5_amended_close_behavior (env : CryptoEnv) (cfg : UdpConfig)
    (sb : Bool) (msg : List Nat) (now : Int) (st1 st2 : UdpSocketState)
    (hts : st1.lastEventTimestamp = st2.lastEventTimestamp)
    (hnek : st1.notificationEncryptionKey = st2.notificationEncryptionKey) :
    (onMessage env cfg sb st1 msg now).2 = (onMessage env cfg sb st2 msg now).2 ∧
    (∀ st : UdpSocketState, st.serverRunning = false →
      close st = (st, Except.error "ERR_SOCKET_DGRAM_NOT_RUNNING")) ∧
    (∀ st : UdpSocketState, st.serverRunning = true →
      close st = ({ st with serverRunning := false }, Except.ok ())) := by
  refine ⟨?_, ?_, ?_⟩
  · unfold onMessage
    by_cases hid : identifierOk msg = true
    · rw [if_pos hid, if_pos hid]
      by_cases hsb : sb = true
      · rw [if_pos hsb, if_pos hsb, hts]
        by_cases hb : now - st2.lastEventTimestamp < 1000
        · rw [if_pos hb, if_pos hb]
        · rw [if_neg hb, if_neg hb]
          exact afterBurst_snd_congr env cfg _ _ msg (by simpa using hnek)
      · rw [if_neg hsb, if_neg hsb]
        exact afterBurst_snd_congr env cfg _ _ msg hnek
    · rw [if_neg hid, if_neg hid]
  · intro st hst
    simp [close, hst]
  · intro st hst
    simp [close, hst]

/-- C5 amended witness: processing a concrete v1 datagram from the closed
state produces the same outcome as from the open state, and a second
close() on the closed state throws. -/
theorem C5_amended_close_behavior_witness :
    (onMessage env0 cfg0 false { initialState with serverRunning := false }
        msgV1 5000).2
      = (onMessage env0 cfg0 false initialState msgV1 5000).2 ∧
    close { initialState with serverRunning := false }
      = ({ initialState with serverRunning := false },
         Except.error "ERR_SOCKET_DGRAM_NOT_RUNNING") :=
  ⟨(C5_amended_close_behavior env0 cfg0 false msgV1 5000
      { initialState with serverRunning := false } initialState rfl rfl).1,
   (C5_amended_close_behavior env0 cfg0 false msgV1 5000
      { initialState with serverRunning := false } initialState rfl rfl).2.1
     { initialState with serverRunning := false } rfl⟩

/-- C6: with burst suppression enabled, once a datagram has been accepted
and dispatched at time t1, a second identifier-valid datagram arriving at
t2 with t2 - t1 < 1000 ms is dropped silently without touching the state
(so the pair yields exactly one event), while at t2 - t1 >= 1000 ms the
second datagram proceeds exactly as the post-burst pipeline does (so an
otherwise-dispatchable datagram yields a second event); the suppression
timestamp is set to the arrival time of every identifier-valid datagram
that passes the burst check — whatever happens in the later version and
device-identity checks — and is left untouched by datagrams that fail the
burst check. -/
theorem C6_burst_suppression (env : CryptoEnv) (cfg : UdpConfig)
    (st0 st1 : UdpSocketState) (msg1 msg2 : List Nat) (t1 t2 : Int)
    (ev1 : UdpEvent)
    (h1 : onMessage env cfg true st0 msg1 t1 = (st1, Except.ok (some ev1)))
    (hi2 : identifierOk msg2 = true) :
    (t2 - t1 < 1000 →
      onMessage env cfg true st1 msg2 t2 = (st1, Except.ok none)) ∧
    (1000 ≤ t2 - t1 →
      onMessage env cfg true st1 msg2 t2
        = onMessageAfterBurst env cfg { st1 with lastEventTimestamp := t2 } msg2) ∧
    (∀ (st : UdpSocketState) (msg : List Nat) (now : Int),
      identifierOk msg = true → 1000 ≤ now - st.lastEventTimestamp →
      ((onMessage env cfg true st msg now).1).lastEventTimestamp = now) ∧
    (∀ (st : UdpSocketState) (msg : List Nat) (now : Int),
      now - st.lastEventTimestamp < 1000 →
      onMessage env cfg true st msg now = (st, Except.ok none)) := by
  have hts : st1.lastEventTimestamp = t1 := dispatched_lastEventTimestamp h1
  refine ⟨?_, ?_, ?_, ?_⟩
  · intro hlt
    unfold onMessage
    rw [if_pos hi2, if_pos rfl, if_pos (by rw [hts]; exact hlt)]
  · intro hge
    unfold onMessage
    rw [if_pos hi2, if_pos rfl, if_neg (by rw [hts]; omega)]
  · intro st msg now hid hge
    unfold onMessage
    rw [if_pos hid, if_pos rfl, if_neg (by omega)]
    rw [afterBurst_lastEventTimestamp]
  · intro st msg now hlt
    unfold onMessage
    by_cases hid : identifierOk msg = true
    · rw [if_pos hid, if_pos rfl, if_pos hlt]
    · rw [if_neg hid]

/-- State of the burst-suppression witness after its first accepted
datagram: the suppression timestamp records the arrival time 5000. -/
def st1c : UdpSocketState := { initialState with lastEventTimestamp := 5000 }

/-- C6 witness: a concrete second datagram arriving 100 ms after the first
accepted one is dropped, and one arriving 1000 ms later proceeds through
the post-burst pipeline. -/
theorem C6_burst_suppression_witness :
    onMessage env0 cfg0 true st1c msgV1 5100 = (st1c, Except.ok none) ∧
    onMessage env0 cfg0 true st1c msgV1 6000
      = onMessageAfterBurst env0 cfg0
          { st1c with lastEventTimestamp := 6000 } msgV1 :=
  ⟨(C6_burst_suppression env0 cfg0 initialState st1c msgV1 msgV1 5000 5100
      (UdpEvent.motion username0 1) rfl rfl).1 (by decide),
   (C6_burst_suppression env0 cfg0 initialState st1c msgV1 msgV1 5000 6000
      (UdpEvent.motion username0 1) rfl rfl).2.1 (by decide)⟩

/-- C7: the notification-key cache collapses the Control-API traffic of a
v2 datagram sequence to one session call: a cache miss performs the call,
stores the extracted key and increments the call counter; a cache hit
returns the stored key with the state untouched; and processing any
nonempty sequence of v2 datagrams from a cold cache performs exactly one
session call in total. -/
theorem C7_key_cache (env : CryptoEnv) (cfg : UdpConfig) (st : UdpSocketState) :
    (st.notificationEncryptionKey = none →
      getNotificationEncryptionKey env st
        = (env.sessionNotificationEncryptionKey,
           { st with
               notificationEncryptionKey := some env.sessionNotificationEncryptionKey
               sessionCalls := st.sessionCalls + 1 })) ∧
    (∀ k, st.notificationEncryptionKey = some k →
      getNotificationEncryptionKey env st = (k, st)) ∧
    (∀ msgs : List (List Nat), st.notificationEncryptionKey = none →
      msgs ≠ [] → (∀ m ∈ msgs, versionByte m = some 2) →
      (processSeq env cfg st msgs).sessionCalls = st.sessionCalls + 1) := by
  refine ⟨?_, ?_, ?_⟩
  · intro h
    simp [getNotificationEncryptionKey, h]
  · intro k h
    simp [getNotificationEncryptionKey, h]
  · intro msgs hnone hne hall
    cases msgs with
    | nil => exact absurd rfl hne
    | cons m rest =>
      have hv : versionByte m = some 2 := hall m (List.mem_cons_self m rest)
      have hstep : (onMessageAfterBurst env cfg st m).1
          = { st with
                notificationEncryptionKey := some env.sessionNotificationEncryptionKey
                sessionCalls := st.sessionCalls + 1 } := by
        unfold onMessageAfterBurst
        rw [hv]
        simp [decryptV2, getNotificationEncryptionKey, hnone]
      change (processSeq env cfg ((onMessageAfterBurst env cfg st m).1) rest).sessionCalls
        = st.sessionCalls + 1
      rw [hstep, processSeq_of_cache_some env cfg rest _
        env.sessionNotificationEncryptionKey rfl]

/-- C7 witness: a cold cache performs the session call, and processing the
concrete two-datagram v2 sequence performs exactly one session call. -/
theorem C7_key_cache_witness :
    getNotificationEncryptionKey env0 initialState
      = (env0.sessionNotificationEncryptionKey,
         { initialState with
             notificationEncryptionKey := some env0.sessionNotificationEncryptionKey
             sessionCalls := initialState.sessionCalls + 1 }) ∧
    (processSeq env0 cfg0 initialState [msgV2, msgV2]).sessionCalls
      = initialState.sessionCalls + 1 :=
  ⟨(C7_key_cache env0 cfg0 initialState).1 rfl,
   (C7_key_cache env0 cfg0 initialState).2.2 [msgV2, msgV2] rfl
     (by decide) (by decide)⟩

/-- A 34-byte payload whose first 6 bytes "bbbbbb" do not match the
configured username "aaaaaa". -/
def payloadBad : List Nat :=
  [98, 98, 98, 98, 98, 98] ++ (motionBytes ++ [32, 32]) ++ [0, 0, 0, 1] ++
    List.replicate 16 0

/-- C8: for every decrypted payload whose first 6 bytes, read as text, do
not equal the first 6 characters of the configured username, the event is
dropped with no error and zero listener invocations — both at the
classification step and through the whole post-burst pipeline, for either
packet version. -/
theorem C8_identity_mismatch_silent (cfg : UdpConfig) (p : List Nat)
    (hne : cfg.username.take 6 ≠ subarray p 0 6) :
    dispatchDecrypted cfg p = Except.ok none ∧
    (∀ motionListeners ringListeners,
      invocationsOf motionListeners ringListeners (dispatchDecrypted cfg p)
        = (0, 0, none)) ∧
    (∀ (env : CryptoEnv) (st : UdpSocketState) (msg : List Nat),
      versionByte msg = some 1 → decryptV1 env cfg msg = Except.ok p →
      onMessageAfterBurst env cfg st msg = (st, Except.ok none)) ∧
    (∀ (env : CryptoEnv) (st : UdpSocketState) (msg : List Nat),
      versionByte msg = some 2 → (decryptV2 env st msg).1 = p →
      onMessageAfterBurst env cfg st msg
        = ((decryptV2 env st msg).2, Except.ok none)) := by
  have hd : dispatchDecrypted cfg p = Except.ok none := by
    simp [dispatchDecrypted, hne]
  refine ⟨hd, ?_, ?_, ?_⟩
  · intro motionListeners ringListeners
    rw [hd]
    rfl
  · intro env st msg hv hdec
    unfold onMessageAfterBurst
    rw [hv]
    simp [hdec, hd]
  · intro env st msg hv hp
    unfold onMessageAfterBurst
    rw [hv]
    simp [hp, hd]

/-- C8 witness: a concrete payload carrying the intercomId "bbbbbb" against
the configured username "aaaaaa" is dropped silently with zero listener
invocations. -/
theorem C8_identity_mismatch_silent_witness :
    dispatchDecrypted cfg0 payloadBad = Except.ok none ∧
    invocationsOf [listenerOk] [listenerOk] (dispatchDecrypted cfg0 payloadBad)
      = (0, 0, none) :=
  ⟨(C8_identity_mismatch_silent cfg0 payloadBad (by decide)).1,
   (C8_identity_mismatch_silent cfg0 payloadBad (by decide)).2.1
     [listenerOk] [listenerOk]⟩

/-- C9 counterexample: with the NOTIFICATION_ENCRYPTION_KEY fixture "NEK"
used by the repository's own test suite as the session response, the v2
decryption key delivered by the key provider has 3 bytes, not 32: the key
is the raw UTF-8 bytes of the response field and its length is never
checked. -/
theorem C9_counterexample :
    (getNotificationEncryptionKey envNEK initialState).1.length = 3 ∧
    ¬ (getNotificationEncryptionKey envNEK initialState).1.length = 32 :=
  ⟨rfl, by decide⟩

/-- C9 (amended): the v2 decryption key is exactly the UTF-8 byte
representation of the NOTIFICATION_ENCRYPTION_KEY field extracted from the
Control API's session-initialization response, cached on first use; its
length equals the field's UTF-8 byte length — no 32-byte length check is
performed. -/
theorem C9_amended_key_extraction (env : CryptoEnv) (st : UdpSocketState)
    (h : st.notificationEncryptionKey = none) :
    (getNotificationEncryptionKey env st).1
      = env.sessionNotificationEncryptionKey ∧
    (getNotificationEncryptionKey env st).2.notificationEncryptionKey
      = some env.sessionNotificationEncryptionKey ∧
    (getNotificationEncryptionKey env st).1.length
      = env.sessionNotificationEncryptionKey.length := by
  simp [getNotificationEncryptionKey, h]

/-- C9 amended witness: the amended statement at the "NEK" fixture and the
fresh socket state. -/
theorem C9_amended_key_extraction_witness :
    (getNotificationEncryptionKey envNEK initialState).1
      = envNEK.sessionNotificationEncryptionKey ∧
    (getNotificationEncryptionKey envNEK initialState).2.notificationEncryptionKey
      = some envNEK.sessionNotificationEncryptionKey ∧
    (getNotificationEncryptionKey envNEK initialState).1.length
      = envNEK.sessionNotificationEncryptionKey.length :=
  C9_amended_key_extraction envNEK initialState rfl

/-- C10: per-datagram processing reads only a fixed-length prefix of the
datagram: two datagrams agreeing on their first 70 bytes (declared version
0x01) or on their first 46 bytes (declared version 0x02) produce, from the
same socket state, identical key-derivation inputs (salt, opslimit,
memlimit), identical decryption results, identical processing outcomes and
identical listener invocations — all trailing bytes are ignored. -/
theorem C10_prefix_dependence (env : CryptoEnv) (cfg : UdpConfig) (sb : Bool)
    (st : UdpSocketState) (now : Int) (msg1 msg2 : List Nat)
    (motionListeners ringListeners : List (UdpEvent → Except String Unit)) :
    (versionByte msg1 = some 1 → msg1.take 70 = msg2.take 70 →
      (subarray msg1 12 28, subarray msg1 4 8, subarray msg1 8 12)
        = (subarray msg2 12 28, subarray msg2 4 8, subarray msg2 8 12) ∧
      decryptV1 env cfg msg1 = decryptV1 env cfg msg2 ∧
      onMessage env cfg sb st msg1 now = onMessage env cfg sb st msg2 now ∧
      invocationsOf motionListeners ringListeners
          (onMessage env cfg sb st msg1 now).2
        = invocationsOf motionListeners ringListeners
            (onMessage env cfg sb st msg2 now).2) ∧
    (versionByte msg1 = some 2 → msg1.take 46 = msg2.take 46 →
      (∀ s : UdpSocketState, decryptV2 env s msg1 = decryptV2 env s msg2) ∧
      onMessage env cfg sb st msg1 now = onMessage env cfg sb st msg2 now ∧
      invocationsOf motionListeners ringListeners
          (onMessage env cfg sb st msg1 now).2
        = invocationsOf motionListeners ringListeners
            (onMessage env cfg sb st msg2 now).2) := by
  constructor
  · intro hv h70
    have e03 := subarray_eq_of_take_eq 0 3 70 (by norm_num) h70
    have e34 := subarray_eq_of_take_eq 3 4 70 (by norm_num) h70
    have e48 := subarray_eq_of_take_eq 4 8 70 (by norm_num) h70
    have e812 := subarray_eq_of_take_eq 8 12 70 (by norm_num) h70
    have e1228 := subarray_eq_of_take_eq 12 28 70 (by norm_num) h70
    have e2836 := subarray_eq_of_take_eq 28 36 70 (by norm_num) h70
    have e3670 := subarray_eq_of_take_eq 36 70 70 (by norm_num) h70
    have e412 := subarray_eq_of_take_eq 4 12 70 (by norm_num) h70
    have e1246 := subarray_eq_of_take_eq 12 46 70 (by norm_num) h70
    have hdec : decryptV1 env cfg msg1 = decryptV1 env cfg msg2 := by
      simp only [decryptV1, e48, e812, e1228, e2836, e3670]
    have hdec2 : ∀ s : UdpSocketState,
        decryptV2 env s msg1 = decryptV2 env s msg2 := by
      intro s
      simp only [decryptV2, e412, e1246]
    have hver : versionByte msg1 = versionByte msg2 := by
      simp only [versionByte, e34]
    have hident : identifierOk msg1 = identifierOk msg2 := by
      simp only [identifierOk, e03]
    have hafter : ∀ s : UdpSocketState,
        onMessageAfterBurst env cfg s msg1 = onMessageAfterBurst env cfg s msg2 := by
      intro s
      unfold onMessageAfterBurst
      rw [hver, hdec]
      simp only [hdec2]
    have hmain : onMessage env cfg sb st msg1 now
        = onMessage env cfg sb st msg2 now := by
      unfold onMessage
      rw [hident]
      simp only [hafter]
    exact ⟨by rw [e1228, e48, e812], hdec, hmain, by rw [hmain]⟩
  · intro hv h46
    have e03 := subarray_eq_of_take_eq 0 3 46 (by norm_num) h46
    have e34 := subarray_eq_of_take_eq 3 4 46 (by norm_num) h46
    have e412 := subarray_eq_of_take_eq 4 12 46 (by norm_num) h46
    have e1246 := subarray_eq_of_take_eq 12 46 46 (by norm_num) h46
    have hdec2 : ∀ s : UdpSocketState,
        decryptV2 env s msg1 = decryptV2 env s msg2 := by
      intro s
      simp only [decryptV2, e412, e1246]
    have hver : versionByte msg1 = versionByte msg2 := by
      simp only [versionByte, e34]
    have hident : identifierOk msg1 = identifierOk msg2 := by
      simp only [identifierOk, e03]
    have hv2 : versionByte msg2 = some 2 := hver ▸ hv
    have hafter : ∀ s : UdpSocketState,
        onMessageAfterBurst env cfg s msg1 = onMessageAfterBurst env cfg s msg2 := by
      intro s
      unfold onMessageAfterBurst
      rw [hv, hv2]
      simp only [hdec2]
    have hmain : onMessage env cfg sb st msg1 now
        = onMessage env cfg sb st msg2 now := by
      unfold onMessage
      rw [hident]
      simp only [hafter]
    exact ⟨hdec2, hmain, by rw [hmain]⟩

/-- The concrete v1 datagram with two trailing junk bytes appended. -/
def msgV1junkA : List Nat := msgV1 ++ [99, 99]

/-- The concrete v1 datagram with one different trailing junk byte. -/
def msgV1junkB : List Nat := msgV1 ++ [111]

/-- The concrete v2 datagram with a trailing junk byte appended. -/
def msgV2junk : List Nat := msgV2 ++ [99]

/-- C10 witness: trailing bytes after the fixed v1 region (70 bytes) and
after the fixed v2 region (46 bytes) do not change the processing outcome
of concrete datagrams. -/
theorem C10_prefix_dependence_witness :
    onMessage env0 cfg0 false initialState msgV1junkA 0
      = onMessage env0 cfg0 false initialState msgV1junkB 0 ∧
    onMessage env0 cfg0 false initialState msgV2junk 0
      = onMessage env0 cfg0 false initialState msgV2 0 :=
  ⟨((C10_prefix_dependence env0 cfg0 false initialState 0 msgV1junkA msgV1junkB
      [listenerOk] [listenerOk]).1 (by decide) (by decide)).2.2.1,
   ((C10_prefix_dependence env0 cfg0 false initialState 0 msgV2junk msgV2
      [listenerOk] [listenerOk]).2 (by decide) (by decide)).2.1⟩
